import Mathlib

/-!
Verification of the EU climate target analysis pipeline.

The pipeline (pandas based) is embedded shallowly:
* a raw table cell is `Raw` (a string, a number, or null/NaN);
* a pandas table is `TblS` (a list of column names plus rows of cells);
* float-valued derived columns are `FVal` (finite rational, plus or minus
  infinity, or missing — NaN and NA are collapsed into `FVal.na`, since
  pandas `isna` treats them identically and no claim distinguishes them);
* `pd.to_numeric(errors="coerce")` is `toNumeric` (a decimal-literal
  parser; exponents and whitespace trimming are omitted as no input in the
  repository needs them), and the nullable-Int64 cast is `castI64`, which
  fails on non-integral numerics exactly as pandas `astype("Int64")` does;
* a raised Python exception is `Except.error` carrying a structured `Err`.
-/

set_option maxRecDepth 8000

deriving instance DecidableEq for Except

namespace ClimatePipeline

/-- A raw pandas cell: string, numeric (modelled as a rational), or missing
(NaN / None). -/
inductive Raw where
  | str (s : String)
  | num (q : ℚ)
  | null
deriving DecidableEq

/-- A float64/Float64 cell of a derived column: finite value, positive or
negative infinity, or missing (NaN and NA collapsed, as pandas `isna`
treats both as missing). -/
inductive FVal where
  | na
  | pinf
  | ninf
  | fin (q : ℚ)
deriving DecidableEq

/-- Structured model of the Python exceptions raised by the pipeline. -/
inductive Err where
  | missingColumn (table col : String)
  | missingJoinKeys (table ccol ycol : String)
  | lengthMismatch (expected got : ℕ)
  | noYearColumns
  | missingYearColumns (a b : String)
  | cannotCastToInt
deriving DecidableEq

/-- Split a character list at every occurrence of a separator, Python
`str.split(sep)` style: `"a,b,"` gives `["a", "b", ""]` and the empty
string gives `[""]`. -/
def splitOnChar (sep : Char) : List Char → List (List Char)
  | [] => [[]]
  | c :: rest =>
      let r := splitOnChar sep rest
      if c = sep then [] :: r
      else
        match r with
        | [] => [[c]]
        | h :: t => (c :: h) :: t

/-- Python `str.split(sep)` on a string, as a list of strings. -/
def pySplit (s : String) (sep : Char) : List String :=
  (splitOnChar sep s.toList).map String.mk

/-- Numeric value of a digit string, most significant digit first. -/
def digitsToNat (l : List Char) : ℕ :=
  l.foldl (fun n c => 10 * n + (c.toNat - 48)) 0

/-- Value of an unsigned decimal literal: integer part plus optional
fractional part, e.g. `"1234.5"`, `"90"`, `".5"`. -/
def parseUnsignedChars (l : List Char) : Option ℚ :=
  match splitOnChar '.' l with
  | [a] => if a ≠ [] ∧ a.all Char.isDigit then some (digitsToNat a : ℚ) else none
  | [a, b] =>
      if a = [] ∧ b = [] then none
      else if a.all Char.isDigit ∧ b.all Char.isDigit then
        some ((digitsToNat a : ℚ) + (digitsToNat b : ℚ) / (10 ^ b.length))
      else none
  | _ => none

/-- Model of Python float parsing of a decimal string (optionally signed). -/
def parseDec (s : String) : Option ℚ :=
  match s.toList with
  | '-' :: rest => (parseUnsignedChars rest).map Neg.neg
  | '+' :: rest => parseUnsignedChars rest
  | l => parseUnsignedChars l

/-- Model of `pd.to_numeric(errors="coerce")` on one cell: numbers pass
through, missing stays missing, strings are parsed, anything unparseable
becomes missing (never zero). -/
def toNumeric : Raw → Option ℚ
  | .num q => some q
  | .null => none
  | .str s => parseDec s

/-- Re-embed an optional numeric as a raw cell (the result of a coerced
column: a number or NaN). -/
def numToRaw : Option ℚ → Raw
  | some q => .num q
  | none => .null

/-- Model of `astype("Int64")` on one numeric-or-missing cell: missing
becomes `NA`, integral values cast, non-integral values raise
(`cannot safely cast non-equivalent float64 to int64`). -/
def castI64 : Option ℚ → Except Err (Option ℤ)
  | none => .ok none
  | some q => if q.den = 1 then .ok (some q.num) else .error .cannotCastToInt

example : parseDec "1234.5" = some (2469 / 2) := by with_unfolding_all decide
example : parseDec "abc" = none := by decide
example : parseDec "-55" = some (-55) := by decide
example : castI64 (parseDec "1234.5") = .error .cannotCastToInt := by with_unfolding_all decide

/-- A pandas DataFrame: a list of column names and a list of rows, each row
a list of cells positionally aligned with the columns. -/
structure TblS where
  cols : List String
  rows : List (List Raw)
deriving DecidableEq

/-- The cell of a row under a named column (first matching column; missing
columns read as null). -/
def cellAt (cols : List String) (row : List Raw) (c : String) : Raw :=
  ((cols.zip row).lookup c).getD .null

/-- A row with the cells of one named column removed
(`df.drop(columns=[c])` at row level). -/
def dropColRow (cols : List String) (row : List Raw) (c : String) : List Raw :=
  ((cols.zip row).filter (fun p => !(p.1 == c))).map Prod.snd

/-- Python `str(cell)`: NaN prints as `"nan"`. -/
def rawToStr : Raw → String
  | .str s => s
  | .num q => toString q
  | .null => "nan"

/-- Python `str.strip()`: drop whitespace from both ends. -/
def pyStrip (s : String) : String :=
  String.mk (((s.toList.dropWhile Char.isWhitespace).reverse.dropWhile Char.isWhitespace).reverse)

/-- Python `str.isdigit()` (empty string is not a digit string). -/
def isDigitStr (s : String) : Bool :=
  !(s == "") && s.toList.all Char.isDigit

/-- Model of `[str(y) for y in range(a, b + 1)]`. -/
def year_strs (a b : ℕ) : List String :=
  (List.range (b + 1 - a)).map (fun i => toString (a + i))

/-- Python `code.startswith(p)`. -/
def pyStartsWith (s p : String) : Bool :=
  p.toList.isPrefixOf s.toList

/-- The `DEFAULT_COUNTRY_MAP` table from `src/data_cleaning.py`. -/
def DEFAULT_COUNTRY_MAP : List (String × String) :=
  [("AT", "Austria"), ("BE", "Belgium"), ("BG", "Bulgaria"), ("CY", "Cyprus"),
   ("CZ", "Czech Republic"), ("DE", "Germany"), ("DK", "Denmark"),
   ("EE", "Estonia"), ("EL", "Greece"), ("ES", "Spain"), ("FI", "Finland"),
   ("FR", "France"), ("HR", "Croatia"), ("HU", "Hungary"), ("IE", "Ireland"),
   ("IT", "Italy"), ("LT", "Lithuania"), ("LU", "Luxembourg"),
   ("LV", "Latvia"), ("MT", "Malta"), ("NL", "Netherlands"), ("PL", "Poland"),
   ("PT", "Portugal"), ("RO", "Romania"), ("SE", "Sweden"), ("SI", "Slovenia"),
   ("SK", "Slovakia"), ("NO", "Norway"), ("IS", "Iceland"),
   ("EU27_2020", "European Union (EU27)")]

/-- The `DEFAULT_EU_COUNTRIES` list from `src/data_cleaning.py`. -/
def DEFAULT_EU_COUNTRIES : List String :=
  ["Austria", "Belgium", "Bulgaria", "Cyprus", "Czech Republic", "Germany",
   "Denmark", "Estonia", "Greece", "Spain", "Finland", "France", "Croatia",
   "Hungary", "Ireland", "Italy", "Lithuania", "Luxembourg", "Latvia",
   "Malta", "Netherlands", "Poland", "Portugal", "Romania", "Sweden",
   "Slovenia", "Slovakia", "Iceland", "Norway"]

/-- The composite key column of the Eurostat emissions TSV. -/
def key_col : String := "freq,unit,airpol,src_crf,geo\\TIME_PERIOD"

/-- The comma-separated fields of a row of the composite key column
(`df[key_col].astype(str).str.split(",")`). -/
def emis_fields (cols : List String) (row : List Raw) : List String :=
  pySplit (rawToStr (cellAt cols row key_col)) ','

/-- The number of columns produced by `str.split(",", expand=True)`:
the maximum field count over all rows. -/
def emis_key_width (t : TblS) : ℕ :=
  ((t.rows.map (fun row => (emis_fields (t.cols.map pyStrip) row).length)).foldl max 0)

/-- One row of the `expand=True` split after the width check passed: the
fields, padded on the right with nulls up to the five named columns. -/
def emis_row_parts (cols : List String) (row : List Raw) : List Raw :=
  (emis_fields cols row).map Raw.str ++
    List.replicate (5 - (emis_fields cols row).length) Raw.null

/-- Model of `df["geo"].map(country_map)` on one cell: unmapped or non-string geo
codes become NaN. -/
def country_of_geo (cmap : List (String × String)) : Raw → Raw
  | .str g => ((cmap.lookup g).elim Raw.null Raw.str)
  | _ => .null

/-- The geo field of a row: the fifth expanded part
(null when the row had fewer than five fields). -/
def emis_geo (cols : List String) (row : List Raw) : Raw :=
  (emis_row_parts cols row).getD 4 Raw.null

/-- One output row of `clean_emissions_raw`: the original cells minus the
key column, then the five split parts, then the mapped country. -/
def emis_out_row (cols : List String) (cmap : List (String × String))
    (row : List Raw) : List Raw :=
  dropColRow cols row key_col ++ emis_row_parts cols row ++
    [country_of_geo cmap (emis_geo cols row)]

/-- Model of `clean_emissions_raw` from `src/data_cleaning.py`: check the composite
key column is present, strip column names, split the key column into the
five columns `freq, unit, airpol, src_crf, geo` (the column assignment
raises a length mismatch when the expanded width is not 5), map the geo
code to a country name, and optionally drop the EU27_2020 aggregate
rows. -/
def clean_emissions_raw (t : TblS) (country_map : List (String × String))
    (drop_eu_total : Bool) : Except Err TblS :=
  if !(t.cols.contains key_col) then
    .error (.missingColumn "emissions raw dataframe" key_col)
  else if emis_key_width t ≠ 5 then
    .error (.lengthMismatch 5 (emis_key_width t))
  else
    .ok ⟨((t.cols.map pyStrip).filter (fun c => !(c == key_col))) ++
           ["freq", "unit", "airpol", "src_crf", "geo", "country"],
         ((if drop_eu_total then
             t.rows.filter (fun row =>
               !(emis_geo (t.cols.map pyStrip) row == Raw.str "EU27_2020"))
           else t.rows).map (emis_out_row (t.cols.map pyStrip) country_map))⟩

/-- The metadata columns dropped by `clean_population_raw` when present. -/
def metadata_cols : List String := ["Country Code", "Indicator Name", "Indicator Code"]

/-- The columns kept by `clean_population_raw`: `Country Name` plus the
year columns 1990..2023 that survive the metadata drop. -/
def pop_keep_cols (t : TblS) : List String :=
  "Country Name" :: (year_strs 1990 2023).filter (fun c =>
    (((t.cols.map pyStrip).filter (fun c2 => !(metadata_cols.contains c2))).contains c))

/-- The rows kept by `clean_population_raw`:
`df[df["Country Name"].isin(eu_countries)]`. -/
def pop_filtered_rows (t : TblS) (eu_countries : List String) : List (List Raw) :=
  t.rows.filter (fun row =>
    match cellAt (t.cols.map pyStrip) row "Country Name" with
    | .str s => eu_countries.contains s
    | _ => false)

/-- The Int64 conversion of one kept row of `clean_population_raw`:
every digit-named column goes through
`pd.to_numeric(errors="coerce").astype("Int64")`. -/
def pop_conv_row (t : TblS) (row : List Raw) : Except Err (List Raw) :=
  ((pop_keep_cols t).zip row).mapM (fun cv =>
    if ((pop_keep_cols t).filter isDigitStr).contains cv.1 then
      (castI64 (toNumeric cv.2)).map (fun z => numToRaw (z.map (fun n => (n : ℚ))))
    else .ok cv.2)

/-- Model of `clean_population_raw` from `src/data_cleaning.py`: strip column names,
require `Country Name`, keep only allow-listed countries, drop metadata
columns, keep `Country Name` plus the year columns 1990..2023 that are
present, and convert every digit-named column with
`pd.to_numeric(errors="coerce").astype("Int64")` (which raises on a
numeric non-integral cell). -/
def clean_population_raw (t : TblS) (eu_countries : List String) : Except Err TblS :=
  if !((t.cols.map pyStrip).contains "Country Name") then
    .error (.missingColumn "population dataframe" "Country Name")
  else
    (((pop_filtered_rows t eu_countries).map (fun row =>
        (pop_keep_cols t).map (fun c => cellAt (t.cols.map pyStrip) row c))).mapM
      (pop_conv_row t)).map (fun rows3 => ⟨pop_keep_cols t, rows3⟩)

/-- One row of the long population table produced by
`population_wide_to_long`. -/
structure PopLong where
  country : Raw
  year : Option ℤ
  population : Option ℤ
deriving DecidableEq

/-- Model of `population_wide_to_long` from `src/merge_data.py`: melt the year
columns present in the range into (country, year, population) rows
(column-major, as pandas `melt` does), then cast both the year column and
the value column with `pd.to_numeric(errors="coerce").astype("Int64")`
(which raises on a numeric non-integral cell). -/
def population_wide_to_long (t : TblS) (country_col : String)
    (year_start year_end : ℕ) : Except Err (List PopLong) :=
  let ycols := (year_strs year_start year_end).filter (fun c => t.cols.contains c)
  let melted := ycols.flatMap (fun y =>
    t.rows.map (fun row => (cellAt t.cols row country_col, y, cellAt t.cols row y)))
  melted.mapM (fun m => do
    let yv ← castI64 (toNumeric (.str m.2.1))
    let pv ← castI64 (toNumeric m.2.2)
    pure ⟨m.1, yv, pv⟩)

/-- Model of `merge_emissions_population_long` from `src/merge_data.py` at its
default join mode `how="inner"` (no claim exercises the other modes):
require both join keys in both inputs (naming the deficient table), then
join on (country, year), fanning out on duplicate keys. -/
def merge_emissions_population_long (em pop : TblS)
    (country_col year_col : String) : Except Err TblS :=
  if !(em.cols.contains country_col) || !(em.cols.contains year_col) then
    .error (.missingJoinKeys "Emissions" country_col year_col)
  else if !(pop.cols.contains country_col) || !(pop.cols.contains year_col) then
    .error (.missingJoinKeys "Population" country_col year_col)
  else
    .ok ⟨em.cols ++ pop.cols.filter (fun c => !(c == country_col) && !(c == year_col)),
      em.rows.flatMap (fun e =>
        (pop.rows.filter (fun p =>
          cellAt pop.cols p country_col == cellAt em.cols e country_col &&
          cellAt pop.cols p year_col == cellAt em.cols e year_col)).map
        (fun p => e ++ (pop.cols.filter (fun c => !(c == country_col) && !(c == year_col))).map
          (fun c => cellAt pop.cols p c)))⟩

/-- Row-wise `df[available].sum(axis=1)`: pandas sums with `skipna=True`
and `min_count=0`, so missing cells contribute nothing and an all-missing
row sums to 0. -/
def row_skipna_sum (cells : List Raw) : ℚ :=
  (cells.map (fun v => (toNumeric v).getD 0)).sum

/-- Model of `out[targets] = out[targets].apply(pd.to_numeric, errors="coerce")` at
row level: coerce the cells of the targeted columns, keep the rest. -/
def coerce_cols (cols : List String) (targets : List String) (row : List Raw) : List Raw :=
  (cols.zip row).map (fun cv => if targets.contains cv.1 then numToRaw (toNumeric cv.2) else cv.2)

/-- Model of `available = [c for c in years if c in out.columns]`. -/
def avail_years (t : TblS) (year_start year_end : ℕ) : List String :=
  (year_strs year_start year_end).filter (fun c => t.cols.contains c)

/-- Model of `add_total_emissions` from `src/feature_engineering.py`: coerce the
year columns present in the range, raise if none exist, and append
`total_emissoes` as the row-wise skipna sum of those columns. -/
def add_total_emissions (t : TblS) (year_start year_end : ℕ) : Except Err TblS :=
  if (avail_years t year_start year_end).isEmpty then .error .noYearColumns
  else
    .ok ⟨t.cols ++ ["total_emissoes"],
      t.rows.map (fun row =>
        coerce_cols t.cols (avail_years t year_start year_end) row ++
          [Raw.num (row_skipna_sum ((avail_years t year_start year_end).map (cellAt t.cols row)))])⟩

/-- Model of `add_difference_between_years` from `src/feature_engineering.py`:
require both year columns, coerce them to numeric, drop every row where
either is missing, and append `diferença_total = year_b - year_a`. -/
def add_difference_between_years (t : TblS) (year_a year_b : ℕ) : Except Err TblS :=
  if !(t.cols.contains (toString year_a)) || !(t.cols.contains (toString year_b)) then
    .error (.missingYearColumns (toString year_a) (toString year_b))
  else
    .ok ⟨t.cols ++ ["diferença_total"],
      (t.rows.filter (fun row =>
        (toNumeric (cellAt t.cols row (toString year_a))).isSome &&
        (toNumeric (cellAt t.cols row (toString year_b))).isSome)).map
        (fun row => coerce_cols t.cols [toString year_a, toString year_b] row ++
          [Raw.num ((toNumeric (cellAt t.cols row (toString year_b))).getD 0 -
                    (toNumeric (cellAt t.cols row (toString year_a))).getD 0)])⟩

/-- A Python object as seen by `map_sector_main`: a string or anything
that is not a string (None, a float NaN, a number, ...). -/
inductive PyObj where
  | pstr (s : String)
  | nonstr
deriving DecidableEq

/-- Model of `map_sector_main` from `src/feature_engineering.py`: prefix checks in
source order CRF1, CRF2, CRF3, CRF4, CRF5, CRF6, TOTX; non-strings and
unmatched codes map to "Outro". -/
def map_sector_main : PyObj → String
  | .nonstr => "Outro"
  | .pstr code =>
    if pyStartsWith code "CRF1" then "Energia"
    else if pyStartsWith code "CRF2" then "Processos Industriais"
    else if pyStartsWith code "CRF3" then "Agricultura"
    else if pyStartsWith code "CRF4" then "Uso do Solo e Florestas (LULUCF)"
    else if pyStartsWith code "CRF5" then "Resíduos"
    else if pyStartsWith code "CRF6" then "Outros"
    else if pyStartsWith code "TOTX" then "Memo"
    else "Outro"

/-- One row of the merged long table as consumed by
`add_emissions_per_capita`: a float emissions cell and a nullable-Int64
population cell (the other columns play no role in the division). -/
structure PCRow where
  emissions : Option ℚ
  population : Option ℤ
deriving DecidableEq

/-- Pandas elementwise `emissions / population` on one row: a missing
operand propagates as missing; division of a nonzero value by zero gives a
signed infinity (as float64 division does); 0 / 0 gives NaN (missing). -/
def div_cell (e : Option ℚ) (p : Option ℤ) : FVal :=
  match e, p with
  | some ev, some pv =>
      if pv = 0 then
        if 0 < ev then .pinf else if ev < 0 then .ninf else .na
      else .fin (ev / (pv : ℚ))
  | _, _ => .na

/-- Model of `add_emissions_per_capita` from `src/feature_engineering.py`:
`out[out_col] = out[emissions_col] / out[population_col]`, appended to
every row. -/
def add_emissions_per_capita (rows : List PCRow) : List (PCRow × FVal) :=
  rows.map (fun r => (r, div_cell r.emissions r.population))

/-- One row of the merged long table as consumed by the KPI calculator:
a country, a nullable year and a float emissions cell. -/
structure MRow where
  country : String
  year : Option ℤ
  emissions : Option ℚ
deriving DecidableEq

/-- Model of `out[out[year_col] == y].groupby(group_col)[emissions_col].sum()`
looked up at one country: `none` when the country has no rows at that year
(it is then absent from the grouped index, and `pd.concat` fills NaN);
otherwise the skipna sum of the group emissions (0 if all are NaN). -/
def groupSum (rows : List MRow) (c : String) (y : ℤ) : Option ℚ :=
  if (rows.filter (fun r => r.country == c && r.year == some y)).isEmpty then none
  else some (((rows.filter (fun r => r.country == c && r.year == some y)).map
    (fun r => r.emissions.getD 0)).sum)

/-- The broadcast `redução_%_atual` cell for one country:
`((current - base) / base) * 100`, NaN-propagating, with float semantics
for a zero base sum (signed infinity, NaN for 0/0). -/
def reduction_kpi (rows : List MRow) (base_year current_year : ℤ) (c : String) : FVal :=
  match groupSum rows c base_year, groupSum rows c current_year with
  | some b, some cu =>
      if b = 0 then
        if 0 < cu then .pinf else if cu < 0 then .ninf else .na
      else .fin ((cu - b) / b * 100)
  | _, _ => .na

/-- Model of `add_reduction_percent_actual` from `src/calculations.py`: the group
KPI left-merged back onto every row by country. -/
def add_reduction_percent_actual (rows : List MRow) (base_year current_year : ℤ) :
    List (MRow × FVal) :=
  rows.map (fun r => (r, reduction_kpi rows base_year current_year r.country))

/-- The broadcast `meta_2030` cell for one country:
`base * (1 + target_reduction_pct / 100)`, NaN when the base-year sum is
absent. -/
def target_kpi (rows : List MRow) (target_reduction_pct : ℚ) (base_year : ℤ)
    (c : String) : FVal :=
  match groupSum rows c base_year with
  | some b => .fin (b * (1 + target_reduction_pct / 100))
  | none => .na

/-- The broadcast `gap_2030` cell for one country:
`meta_2030 - compare`, NaN when the sum of either year is absent. -/
def gap_kpi (rows : List MRow) (target_reduction_pct : ℚ) (base_year compare_year : ℤ)
    (c : String) : FVal :=
  match groupSum rows c base_year, groupSum rows c compare_year with
  | some b, some cm => .fin (b * (1 + target_reduction_pct / 100) - cm)
  | _, _ => .na

/-- Model of `add_target_2030_and_gap` from `src/calculations.py`: the two group
KPIs left-merged back onto every row by country. -/
def add_target_2030_and_gap (rows : List MRow) (target_reduction_pct : ℚ)
    (base_year compare_year : ℤ) : List (MRow × FVal × FVal) :=
  rows.map (fun r =>
    (r, target_kpi rows target_reduction_pct base_year r.country,
        gap_kpi rows target_reduction_pct base_year compare_year r.country))

/-- Round half to even at integer precision (the numpy/pandas `round`
rule). -/
def roundHalfEven (q : ℚ) : ℤ :=
  if q - ⌊q⌋ < 1 / 2 then ⌊q⌋
  else if 1 / 2 < q - ⌊q⌋ then ⌊q⌋ + 1
  else if Even ⌊q⌋ then ⌊q⌋ else ⌊q⌋ + 1

/-- Pandas `Series.round(nd)` on one value. -/
def roundTo (nd : ℕ) (q : ℚ) : ℚ :=
  (roundHalfEven (q * 10 ^ nd) : ℚ) / 10 ^ nd

/-- Model of `pd.to_numeric(errors="coerce").round(nd)` on one cell. -/
def coerceRound (nd : ℕ) (v : Raw) : Raw :=
  match toNumeric v with
  | some q => .num (roundTo nd q)
  | none => .null

/-- Model of `apply_rounding` from `src/feature_engineering.py`: columns named in
`round_5_cols` are coerced and rounded to 5 decimals, then columns named
in `percent_cols` are coerced and rounded to 0 decimals; absent columns
are silently skipped (the iteration only touches columns of the table). -/
def apply_rounding (t : TblS) (round_5_cols percent_cols : List String) : TblS :=
  ⟨t.cols,
   t.rows.map (fun row =>
     (t.cols.zip row).map (fun cv =>
       let v1 := if round_5_cols.contains cv.1 then coerceRound 5 cv.2 else cv.2
       if percent_cols.contains cv.1 then coerceRound 0 v1 else v1))⟩

/-- A model of the Python heap restricted to DataFrame objects: a list of
tables, a reference being an index into it. Used to state that the
pipeline stages copy their argument instead of mutating it. -/
def emptyTbl : TblS := ⟨[], []⟩

/-- Model of `clean_emissions_raw` as a heap program: read the argument reference,
allocate the `df = df_raw.copy()` copy at a fresh reference, run all
subsequent column mutations against the reference of the copy, and return it
(or raise after the copy, as the Python body does). -/
def clean_emissions_raw_prog (h : List TblS) (r : ℕ)
    (country_map : List (String × String)) (drop_eu_total : Bool) :
    List TblS × Except Err ℕ :=
  match clean_emissions_raw (h.getD r emptyTbl) country_map drop_eu_total with
  | .error e => (h ++ [h.getD r emptyTbl], .error e)
  | .ok t => ((h ++ [h.getD r emptyTbl]).set h.length t, .ok h.length)

/-- Model of `apply_rounding` as a heap program: allocate `out = df.copy()` at a
fresh reference, mutate only the copy, return its reference. -/
def apply_rounding_prog (h : List TblS) (r : ℕ)
    (round_5_cols percent_cols : List String) : List TblS × ℕ :=
  ((h ++ [h.getD r emptyTbl]).set h.length
    (apply_rounding (h.getD r emptyTbl) round_5_cols percent_cols), h.length)

/-- Model of `merge_emissions_population_long` as a heap program: allocate the
`em`/`pop` copies, then allocate the fresh merged result (or raise). -/
def merge_prog (h : List TblS) (r1 r2 : ℕ) (country_col year_col : String) :
    List TblS × Except Err ℕ :=
  match merge_emissions_population_long (h.getD r1 emptyTbl) (h.getD r2 emptyTbl)
      country_col year_col with
  | .error e => (h ++ [h.getD r1 emptyTbl, h.getD r2 emptyTbl], .error e)
  | .ok t => (h ++ [h.getD r1 emptyTbl, h.getD r2 emptyTbl] ++ [t],
              .ok (h ++ [h.getD r1 emptyTbl, h.getD r2 emptyTbl]).length)

/-- The priority-ordered prefix table for the sector mapping
(written from the words of the spec, to compare with `map_sector_main`). -/
def sector_priority : List (String × String) :=
  [("CRF1", "Energia"), ("CRF2", "Processos Industriais"), ("CRF3", "Agricultura"),
   ("CRF4", "Uso do Solo e Florestas (LULUCF)"), ("CRF5", "Resíduos"),
   ("CRF6", "Outros"), ("TOTX", "Memo")]

/-- First-match prefix lookup over an ordered table, defaulting to
"Outro": the description given by the spec of the sector mapping. -/
def firstPrefixHit : List (String × String) → String → String
  | [], _ => "Outro"
  | (p, v) :: rest, code => if pyStartsWith code p then v else firstPrefixHit rest code

/-- Replace every cell that `pd.to_numeric` cannot parse by a literal
zero, leaving parseable cells alone. -/
def zero_fill_missing (cells : List Raw) : List Raw :=
  cells.map (fun v => match toNumeric v with | some _ => v | none => Raw.num 0)

/-- The KPI example of the spec:  table: country "Xland" with base-year (1990)
emissions sum 200 and current-year (2023) sum 90. -/
def xland : List MRow :=
  [⟨"Xland", some 1990, some 200⟩, ⟨"Xland", some 2023, some 90⟩]

end ClimatePipeline

namespace ClimatePipeline

/-- Zero-filling a cell does not change its coerced numeric reading with
missing-as-zero: this is the arithmetic content of pandas skipna
summation. -/
theorem toNumeric_zero_fill (v : Raw) :
    toNumeric (match toNumeric v with | some _ => v | none => Raw.num 0) =
      some ((toNumeric v).getD 0) := by
  cases h : toNumeric v
  · simp only [h]
    rfl
  · simp only [h, Option.getD_some]

/-- Claim C6: `map_sector_main` evaluates its prefix checks in the exact
order CRF1, CRF2, CRF3, CRF4, CRF5, CRF6, TOTX (it agrees with first-match
lookup over that priority-ordered table) and maps any other input,
including any non-string, to "Outro"; in particular "CRF1.A" maps to
"Energia", "TOTXMEMO" maps to "Memo", and a non-string maps to "Outro". -/
theorem claim_C6 :
    (∀ s : String, map_sector_main (.pstr s) = firstPrefixHit sector_priority s) ∧
    map_sector_main .nonstr = "Outro" ∧
    map_sector_main (.pstr "CRF1.A") = "Energia" ∧
    map_sector_main (.pstr "TOTXMEMO") = "Memo" ∧
    map_sector_main (.pstr "CRF7.X") = "Outro" :=
  ⟨fun _ => rfl, rfl, by decide, by decide, by decide⟩

/-- Claim C3, counterexample: a merged row with emissions 100 and
population 0 gets `emissions_per_capita = +inf` (float division by zero),
not a missing value as the claim asserts. -/
theorem claim_C3_counterexample :
    add_emissions_per_capita [⟨some 100, some 0⟩] = [(⟨some 100, some 0⟩, FVal.pinf)] ∧
    FVal.pinf ≠ FVal.na := by
  constructor
  · with_unfolding_all decide
  · decide

/-- Claim C3, amended: `add_emissions_per_capita` computes
`emissions / population` elementwise; a missing population or a missing
emissions value propagates as a missing result (and the function is total,
so no exception); emissions 100 and population 50 give 2.0; but a zero
population with nonzero emissions gives a signed infinity, not a missing
value (0 / 0 does give NaN, i.e. missing). -/
theorem claim_C3 :
    (∀ (rows : List PCRow) (r : PCRow) (fv : FVal),
        (r, fv) ∈ add_emissions_per_capita rows →
        (∀ (e : ℚ) (p : ℤ), r.emissions = some e → r.population = some p → p ≠ 0 →
            fv = .fin (e / (p : ℚ))) ∧
        (r.population = none → fv = .na) ∧
        (r.emissions = none → fv = .na)) ∧
    add_emissions_per_capita [⟨some 100, some 50⟩] = [(⟨some 100, some 50⟩, .fin 2)] ∧
    add_emissions_per_capita [⟨some 0, some 0⟩] = [(⟨some 0, some 0⟩, .na)] := by
  refine ⟨?_, by with_unfolding_all decide, by with_unfolding_all decide⟩
  intro rows r fv hmem
  simp only [add_emissions_per_capita, List.mem_map] at hmem
  obtain ⟨r0, _, heq⟩ := hmem
  obtain ⟨rfl, rfl⟩ := Prod.mk.injEq .. ▸ heq
  refine ⟨?_, ?_, ?_⟩
  · intro e p he hp hpne
    simp [div_cell, he, hp, hpne]
  · intro hp
    cases he : r0.emissions <;> simp [div_cell, he, hp]
  · intro he
    simp [div_cell, he]

/-- Witness for claim C3 at a concrete row: emissions 100 over population
50 evaluates to 100 / 50. -/
theorem claim_C3_witness :
    FVal.fin 2 = FVal.fin ((100 : ℚ) / ((50 : ℤ) : ℚ)) :=
  (claim_C3.1 [⟨some 100, some 50⟩] ⟨some 100, some 50⟩ (FVal.fin 2)
      (by with_unfolding_all decide)).1 100 50 rfl rfl (by decide)

/-- Claim C2, counterexample: in `add_total_emissions`, a row whose 1991
cell is unparseable ("abc" becomes NaN) gets `total_emissoes = 5` — the
same, non-missing total as the row with a literal zero in that cell, so
the missing value is treated exactly as zero instead of propagating. -/
theorem claim_C2_counterexample :
    add_total_emissions ⟨["1990", "1991"], [[Raw.num 5, Raw.str "abc"]]⟩ 1990 2023 =
      .ok ⟨["1990", "1991", "total_emissoes"], [[Raw.num 5, Raw.null, Raw.num 5]]⟩ ∧
    add_total_emissions ⟨["1990", "1991"], [[Raw.num 5, Raw.num 0]]⟩ 1990 2023 =
      .ok ⟨["1990", "1991", "total_emissoes"], [[Raw.num 5, Raw.num 0, Raw.num 5]]⟩ ∧
    toNumeric (Raw.str "abc") = none := by
  refine ⟨?_, ?_, by decide⟩ <;> with_unfolding_all decide

/-- Claim C2, amended: missing or unparseable numeric cells become the
missing marker (never zero), and `add_difference_between_years` drops
every row where either year value is missing; but `add_total_emissions`
sums a row by skipping missing cells — numerically identical to treating
them as zero (an all-missing row totals 0, and the total column is always
a number, never missing). -/
theorem claim_C2 :
    (∀ v : Raw, toNumeric v = none → numToRaw (toNumeric v) = Raw.null) ∧
    (∀ cells : List Raw, row_skipna_sum (zero_fill_missing cells) = row_skipna_sum cells) ∧
    (∀ cells : List Raw, (∀ v ∈ cells, toNumeric v = none) → row_skipna_sum cells = 0) ∧
    (∀ (t : TblS) (ys ye : ℕ) (u : TblS), add_total_emissions t ys ye = .ok u →
        ∀ r ∈ u.rows, ∃ q : ℚ, r.getLast? = some (Raw.num q)) ∧
    (∀ (t : TblS) (ya yb : ℕ) (u : TblS), add_difference_between_years t ya yb = .ok u →
        u.rows.length = (t.rows.filter (fun row =>
          (toNumeric (cellAt t.cols row (toString ya))).isSome &&
          (toNumeric (cellAt t.cols row (toString yb))).isSome)).length ∧
        ∀ r ∈ u.rows, ∃ row, row ∈ t.rows ∧
          (toNumeric (cellAt t.cols row (toString ya))).isSome = true ∧
          (toNumeric (cellAt t.cols row (toString yb))).isSome = true) := by
  refine ⟨?_, ?_, ?_, ?_, ?_⟩
  · intro v h
    rw [h]
    rfl
  · intro cells
    unfold row_skipna_sum zero_fill_missing
    rw [List.map_map]
    congr 1
    apply List.map_congr_left
    intro a _
    show (toNumeric (match toNumeric a with | some _ => a | none => Raw.num 0)).getD 0 =
      (toNumeric a).getD 0
    rw [toNumeric_zero_fill, Option.getD_some]
  · intro cells h
    induction cells with
    | nil => rfl
    | cons v rest ih =>
        have hv := h v (List.mem_cons_self ..)
        have hrest := ih (fun w hw => h w (List.mem_cons_of_mem _ hw))
        unfold row_skipna_sum at hrest ⊢
        simp [hv, hrest]
  · intro t ys ye u h
    unfold add_total_emissions at h
    split at h
    · exact Except.noConfusion h
    · injection h with h
      subst h
      intro r hr
      simp only [List.mem_map] at hr
      obtain ⟨row, _, rfl⟩ := hr
      refine ⟨row_skipna_sum ((avail_years t ys ye).map (cellAt t.cols row)), ?_⟩
      simp
  · intro t ya yb u h
    unfold add_difference_between_years at h
    split at h
    · exact Except.noConfusion h
    · injection h with h
      subst h
      refine ⟨by simp, ?_⟩
      intro r hr
      simp only [List.mem_map, List.mem_filter, Bool.and_eq_true] at hr
      obtain ⟨row, ⟨hmem, h1, h2⟩, rfl⟩ := hr
      exact ⟨row, hmem, h1, h2⟩

/-- Witness for claim C2 at concrete inputs: the skipna total of an
all-missing row is 0, a zero-filled row keeps the same total, and the
difference stage keeps exactly the fully-present rows. -/
theorem claim_C2_witness :
    row_skipna_sum (zero_fill_missing [Raw.str "abc", Raw.num 5]) =
      row_skipna_sum [Raw.str "abc", Raw.num 5] ∧
    row_skipna_sum [Raw.null, Raw.str "abc"] = 0 ∧
    (∀ r ∈ (TblS.mk ["1990", "2023", "diferença_total"]
        [[Raw.num 1, Raw.num 3, Raw.num 2]]).rows, ∃ row,
        row ∈ (TblS.mk ["1990", "2023"] [[Raw.num 1, Raw.num 3], [Raw.null, Raw.num 7]]).rows ∧
        (toNumeric (cellAt ["1990", "2023"] row (toString 1990))).isSome = true ∧
        (toNumeric (cellAt ["1990", "2023"] row (toString 2023))).isSome = true) :=
  ⟨claim_C2.2.1 [Raw.str "abc", Raw.num 5],
   claim_C2.2.2.1 [Raw.null, Raw.str "abc"] (by decide),
   (claim_C2.2.2.2.2 ⟨["1990", "2023"], [[Raw.num 1, Raw.num 3], [Raw.null, Raw.num 7]]⟩
      1990 2023 _ (by with_unfolding_all decide)).2⟩

/-- Claim C4, counterexample: on a table whose only composite-key row has
two comma-separated fields, `clean_emissions_raw` raises a length-mismatch
error (assigning 5 names to a 2-column expansion), instead of producing
missing trailing fields as the claim asserts. -/
theorem claim_C4_counterexample :
    clean_emissions_raw ⟨[key_col], [[Raw.str "a,b"]]⟩ DEFAULT_COUNTRY_MAP true =
      .error (.lengthMismatch 5 2) := by
  with_unfolding_all decide

/-- Claim C4, amended: provided the maximum comma-separated field count
over the rows of the table is exactly 5, `clean_emissions_raw` succeeds, its
output gains the five columns `freq, unit, airpol, src_crf, geo` (plus
`country`), a row with exactly 5 fields yields precisely those fields, and
a row with fewer than 5 fields is padded with missing trailing fields;
when the maximum field count differs from 5, the column assignment raises
a length mismatch instead. -/
theorem claim_C4 :
    (∀ (t : TblS) (cm : List (String × String)) (b : Bool),
        t.cols.contains key_col = true → emis_key_width t = 5 →
        ∃ u, clean_emissions_raw t cm b = .ok u ∧
          u.cols = ((t.cols.map pyStrip).filter (fun c => !(c == key_col))) ++
            ["freq", "unit", "airpol", "src_crf", "geo", "country"]) ∧
    (∀ (t : TblS) (cm : List (String × String)) (b : Bool),
        t.cols.contains key_col = true → emis_key_width t ≠ 5 →
        clean_emissions_raw t cm b = .error (.lengthMismatch 5 (emis_key_width t))) ∧
    (∀ (cols : List String) (row : List Raw), (emis_fields cols row).length = 5 →
        emis_row_parts cols row = (emis_fields cols row).map Raw.str) ∧
    (∀ (cols : List String) (row : List Raw), (emis_fields cols row).length < 5 →
        emis_row_parts cols row = (emis_fields cols row).map Raw.str ++
          List.replicate (5 - (emis_fields cols row).length) Raw.null ∧
        (emis_row_parts cols row).length = 5) := by
  refine ⟨?_, ?_, ?_, ?_⟩
  · intro t cm b hc hw
    unfold clean_emissions_raw
    rw [hc, hw]
    exact ⟨_, rfl, rfl⟩
  · intro t cm b hc hw
    unfold clean_emissions_raw
    rw [hc]
    simp [hw]
  · intro cols row h
    unfold emis_row_parts
    rw [h]
    simp
  · intro cols row h
    constructor
    · rfl
    · unfold emis_row_parts
      simp only [List.length_append, List.length_map, List.length_replicate]
      omega

/-- Witness for claim C4 at a concrete table: one row with exactly five
comma-separated fields, and one three-field row in a five-wide table. -/
theorem claim_C4_witness :
    (∃ u, clean_emissions_raw ⟨[key_col], [[Raw.str "A,TOTAL,GHG,TOTX,PT"]]⟩
        DEFAULT_COUNTRY_MAP true = .ok u ∧
      u.cols = (([key_col].map pyStrip).filter (fun c => !(c == key_col))) ++
        ["freq", "unit", "airpol", "src_crf", "geo", "country"]) ∧
    emis_row_parts [key_col] [Raw.str "A,TOTAL,GHG,TOTX,PT"] =
      (emis_fields [key_col] [Raw.str "A,TOTAL,GHG,TOTX,PT"]).map Raw.str ∧
    emis_row_parts [key_col] [Raw.str "a,b,c"] =
      (emis_fields [key_col] [Raw.str "a,b,c"]).map Raw.str ++
        List.replicate (5 - (emis_fields [key_col] [Raw.str "a,b,c"]).length) Raw.null :=
  ⟨claim_C4.1 ⟨[key_col], [[Raw.str "A,TOTAL,GHG,TOTX,PT"]]⟩ DEFAULT_COUNTRY_MAP true
      (by decide) (by decide),
   claim_C4.2.2.1 [key_col] [Raw.str "A,TOTAL,GHG,TOTX,PT"] (by decide),
   (claim_C4.2.2.2 [key_col] [Raw.str "a,b,c"] (by decide)).1⟩

/-- Claim C5: each stage fails fast, with no output, on a missing required
column — `clean_emissions_raw` when the composite key column is absent,
`clean_population_raw` when `Country Name` is absent (after header
stripping), and the merge when either input lacks the `country` or `year`
join key, the error naming the missing column(s) and the deficient
table. -/
theorem claim_C5 :
    (∀ (t : TblS) (cm : List (String × String)) (b : Bool),
        t.cols.contains key_col = false →
        clean_emissions_raw t cm b =
          .error (.missingColumn "emissions raw dataframe" key_col)) ∧
    (∀ (t : TblS) (eu : List String),
        (t.cols.map pyStrip).contains "Country Name" = false →
        clean_population_raw t eu =
          .error (.missingColumn "population dataframe" "Country Name")) ∧
    (∀ (em pop : TblS) (c y : String),
        em.cols.contains c = false ∨ em.cols.contains y = false →
        merge_emissions_population_long em pop c y =
          .error (.missingJoinKeys "Emissions" c y)) ∧
    (∀ (em pop : TblS) (c y : String),
        em.cols.contains c = true → em.cols.contains y = true →
        pop.cols.contains c = false ∨ pop.cols.contains y = false →
        merge_emissions_population_long em pop c y =
          .error (.missingJoinKeys "Population" c y)) := by
  refine ⟨?_, ?_, ?_, ?_⟩
  · intro t cm b hc
    unfold clean_emissions_raw
    rw [hc]
    rfl
  · intro t eu hc
    unfold clean_population_raw
    rw [hc]
    rfl
  · intro em pop c y hc
    have h1 : (!(em.cols.contains c) || !(em.cols.contains y)) = true := by
      rcases hc with h | h <;> rw [h] <;> simp
    unfold merge_emissions_population_long
    rw [h1]
    rfl
  · intro em pop c y hc hy hp
    have h1 : (!(em.cols.contains c) || !(em.cols.contains y)) = false := by
      rw [hc, hy]
      rfl
    have h2 : (!(pop.cols.contains c) || !(pop.cols.contains y)) = true := by
      rcases hp with h | h <;> rw [h] <;> simp
    unfold merge_emissions_population_long
    rw [h1, h2]
    rfl

/-- Witness for claim C5 at concrete deficient tables. -/
theorem claim_C5_witness :
    clean_emissions_raw ⟨["wrong"], []⟩ DEFAULT_COUNTRY_MAP true =
      .error (.missingColumn "emissions raw dataframe" key_col) ∧
    clean_population_raw ⟨["wrong"], []⟩ DEFAULT_EU_COUNTRIES =
      .error (.missingColumn "population dataframe" "Country Name") ∧
    merge_emissions_population_long ⟨["year"], []⟩ ⟨["country", "year"], []⟩
      "country" "year" = .error (.missingJoinKeys "Emissions" "country" "year") ∧
    merge_emissions_population_long ⟨["country", "year"], []⟩ ⟨["country"], []⟩
      "country" "year" = .error (.missingJoinKeys "Population" "country" "year") :=
  ⟨claim_C5.1 ⟨["wrong"], []⟩ DEFAULT_COUNTRY_MAP true (by decide),
   claim_C5.2.1 ⟨["wrong"], []⟩ DEFAULT_EU_COUNTRIES (by decide),
   claim_C5.2.2.1 ⟨["year"], []⟩ ⟨["country", "year"], []⟩ "country" "year"
     (Or.inl (by decide)),
   claim_C5.2.2.2 ⟨["country", "year"], []⟩ ⟨["country"], []⟩ "country" "year"
     (by decide) (by decide) (Or.inr (by decide))⟩

/-- Claim C1: per country, `add_reduction_percent_actual` broadcasts
`((sum at current_year) - (sum at base_year)) / (sum at base_year) * 100`
and `add_target_2030_and_gap` broadcasts
`target_2030 = (sum at base_year) * (1 + target_reduction_pct / 100)` and
`gap_2030 = target_2030 - (sum at compare_year)`; on the Xland example
(base-year sum 200, current-year sum 90, target −55 %) this gives
`percent_reduction_actual = -55`, `target_2030 = 90`, `gap_2030 = 0`. -/
theorem claim_C1 :
    (∀ (rows : List MRow) (base curr : ℤ) (c : String) (b cu : ℚ),
        groupSum rows c base = some b → b ≠ 0 → groupSum rows c curr = some cu →
        ∀ p ∈ add_reduction_percent_actual rows base curr, p.1.country = c →
          p.2 = .fin ((cu - b) / b * 100)) ∧
    (∀ (rows : List MRow) (pct : ℚ) (base cmp : ℤ) (c : String) (b : ℚ),
        groupSum rows c base = some b →
        ∀ p ∈ add_target_2030_and_gap rows pct base cmp, p.1.country = c →
          p.2.1 = .fin (b * (1 + pct / 100))) ∧
    (∀ (rows : List MRow) (pct : ℚ) (base cmp : ℤ) (c : String) (b cm : ℚ),
        groupSum rows c base = some b → groupSum rows c cmp = some cm →
        ∀ p ∈ add_target_2030_and_gap rows pct base cmp, p.1.country = c →
          p.2.2 = .fin (b * (1 + pct / 100) - cm)) ∧
    add_reduction_percent_actual xland 1990 2023 =
      [(⟨"Xland", some 1990, some 200⟩, .fin (-55)),
       (⟨"Xland", some 2023, some 90⟩, .fin (-55))] ∧
    add_target_2030_and_gap xland (-55) 1990 2023 =
      [(⟨"Xland", some 1990, some 200⟩, .fin 90, .fin 0),
       (⟨"Xland", some 2023, some 90⟩, .fin 90, .fin 0)] := by
  refine ⟨?_, ?_, ?_, by with_unfolding_all decide, by with_unfolding_all decide⟩
  · intro rows base curr c b cu hb hb0 hcu p hp hpc
    simp only [add_reduction_percent_actual, List.mem_map] at hp
    obtain ⟨r, _, rfl⟩ := hp
    have hc : r.country = c := hpc
    show reduction_kpi rows base curr r.country = .fin ((cu - b) / b * 100)
    rw [hc]
    unfold reduction_kpi
    rw [hb, hcu]
    simp [hb0]
  · intro rows pct base cmp c b hb p hp hpc
    simp only [add_target_2030_and_gap, List.mem_map] at hp
    obtain ⟨r, _, rfl⟩ := hp
    have hc : r.country = c := hpc
    show target_kpi rows pct base r.country = .fin (b * (1 + pct / 100))
    rw [hc]
    unfold target_kpi
    rw [hb]
  · intro rows pct base cmp c b cm hb hcm p hp hpc
    simp only [add_target_2030_and_gap, List.mem_map] at hp
    obtain ⟨r, _, rfl⟩ := hp
    have hc : r.country = c := hpc
    show gap_kpi rows pct base cmp r.country = .fin (b * (1 + pct / 100) - cm)
    rw [hc]
    unfold gap_kpi
    rw [hb, hcm]

/-- Witness for claim C1 at the Xland table, discharging the group-sum
hypotheses concretely. -/
theorem claim_C1_witness :
    (MRow.mk "Xland" (some 1990) (some 200), FVal.fin (-55)).2 =
      FVal.fin (((90 : ℚ) - 200) / 200 * 100) :=
  claim_C1.1 xland 1990 2023 "Xland" 200 90 (by with_unfolding_all decide)
    (by decide) (by with_unfolding_all decide)
    (⟨"Xland", some 1990, some 200⟩, FVal.fin (-55))
    (by with_unfolding_all decide) rfl

/-- Claim C7, counterexample: country "A" has a base-year (1990) row but no
rows at the compare year 2023; `add_target_2030_and_gap` still produces a
present `meta_2030` value (4.5) on its row — not a missing value in every
KPI column as the claim asserts (only `gap_2030` is missing). -/
theorem claim_C7_counterexample :
    add_target_2030_and_gap [⟨"A", some 1990, some 10⟩] (-55) 1990 2023 =
      [(⟨"A", some 1990, some 10⟩, .fin (9 / 2), .na)] ∧
    (∀ r ∈ [MRow.mk "A" (some 1990) (some 10)], ¬(r.country = "A" ∧ r.year = some 2023)) ∧
    FVal.fin (9 / 2) ≠ FVal.na := by
  refine ⟨?_, by decide, by decide⟩
  with_unfolding_all decide

/-- Claim C7, amended: a country with no rows at a year has an absent
group sum for that year, and every KPI cell depending on an absent sum is
missing on all of the rows of that country — all three KPI columns when the
base year is absent, `percent_reduction_actual` when the current year is
absent, `gap_2030` when the compare year is absent (`target_2030`, which
depends only on the base year, stays present in that last case); nothing
raises and the absent sum is never replaced by zero (the cells are
missing, not 0). -/
theorem claim_C7 :
    (∀ (rows : List MRow) (c : String) (y : ℤ),
        (∀ r ∈ rows, ¬(r.country = c ∧ r.year = some y)) → groupSum rows c y = none) ∧
    (∀ (rows : List MRow) (base curr : ℤ) (c : String),
        groupSum rows c base = none →
        ∀ p ∈ add_reduction_percent_actual rows base curr, p.1.country = c → p.2 = .na) ∧
    (∀ (rows : List MRow) (base curr : ℤ) (c : String),
        groupSum rows c curr = none →
        ∀ p ∈ add_reduction_percent_actual rows base curr, p.1.country = c → p.2 = .na) ∧
    (∀ (rows : List MRow) (pct : ℚ) (base cmp : ℤ) (c : String),
        groupSum rows c base = none →
        ∀ p ∈ add_target_2030_and_gap rows pct base cmp, p.1.country = c →
          p.2.1 = .na ∧ p.2.2 = .na) ∧
    (∀ (rows : List MRow) (pct : ℚ) (base cmp : ℤ) (c : String),
        groupSum rows c cmp = none →
        ∀ p ∈ add_target_2030_and_gap rows pct base cmp, p.1.country = c →
          p.2.2 = .na) ∧
    FVal.na ≠ FVal.fin 0 := by
  refine ⟨?_, ?_, ?_, ?_, ?_, by decide⟩
  · intro rows c y h
    have hnil : rows.filter (fun r => r.country == c && r.year == some y) = [] := by
      rw [List.filter_eq_nil_iff]
      intro a ha
      simp only [Bool.and_eq_true, beq_iff_eq]
      exact fun hh => h a ha hh
    unfold groupSum
    rw [hnil]
    rfl
  · intro rows base curr c hb p hp hpc
    simp only [add_reduction_percent_actual, List.mem_map] at hp
    obtain ⟨r, _, rfl⟩ := hp
    have hc : r.country = c := hpc
    show reduction_kpi rows base curr r.country = .na
    rw [hc]
    unfold reduction_kpi
    rw [hb]
  · intro rows base curr c hcu p hp hpc
    simp only [add_reduction_percent_actual, List.mem_map] at hp
    obtain ⟨r, _, rfl⟩ := hp
    have hc : r.country = c := hpc
    show reduction_kpi rows base curr r.country = .na
    rw [hc]
    unfold reduction_kpi
    cases hbase : groupSum rows c base <;> rw [hcu]
  · intro rows pct base cmp c hb p hp hpc
    simp only [add_target_2030_and_gap, List.mem_map] at hp
    obtain ⟨r, _, rfl⟩ := hp
    have hc : r.country = c := hpc
    constructor
    · show target_kpi rows pct base r.country = .na
      rw [hc]
      unfold target_kpi
      rw [hb]
    · show gap_kpi rows pct base cmp r.country = .na
      rw [hc]
      unfold gap_kpi
      rw [hb]
  · intro rows pct base cmp c hcm p hp hpc
    simp only [add_target_2030_and_gap, List.mem_map] at hp
    obtain ⟨r, _, rfl⟩ := hp
    have hc : r.country = c := hpc
    show gap_kpi rows pct base cmp r.country = .na
    rw [hc]
    unfold gap_kpi
    cases hbase : groupSum rows c base <;> rw [hcm]

/-- Witness for claim C7 at a concrete table: country "B" has no 1990
rows, so its reduction KPI cell is missing. -/
theorem claim_C7_witness :
    groupSum [MRow.mk "B" (some 2023) (some 7)] "B" 1990 = none ∧
    (MRow.mk "B" (some 2023) (some 7), FVal.na).2 = FVal.na :=
  ⟨claim_C7.1 [⟨"B", some 2023, some 7⟩] "B" 1990 (by decide),
   claim_C7.2.1 [⟨"B", some 2023, some 7⟩] 1990 2023 "B" (by with_unfolding_all decide)
     (⟨"B", some 2023, some 7⟩, FVal.na) (by with_unfolding_all decide) rfl⟩

/-- Claim C8: after `add_reduction_percent_actual` and
`add_target_2030_and_gap`, any two output rows sharing the same country
carry identical `percent_reduction_actual`, `target_2030` and `gap_2030`
values, regardless of the year of each row: the KPI columns are group
aggregates broadcast onto the row-level table. -/
theorem claim_C8 :
    (∀ (rows : List MRow) (base curr : ℤ) (p1 p2 : MRow × FVal),
        p1 ∈ add_reduction_percent_actual rows base curr →
        p2 ∈ add_reduction_percent_actual rows base curr →
        p1.1.country = p2.1.country → p1.2 = p2.2) ∧
    (∀ (rows : List MRow) (pct : ℚ) (base cmp : ℤ) (p1 p2 : MRow × FVal × FVal),
        p1 ∈ add_target_2030_and_gap rows pct base cmp →
        p2 ∈ add_target_2030_and_gap rows pct base cmp →
        p1.1.country = p2.1.country → p1.2 = p2.2) := by
  constructor
  · intro rows base curr p1 p2 h1 h2 hc
    simp only [add_reduction_percent_actual, List.mem_map] at h1 h2
    obtain ⟨r1, _, rfl⟩ := h1
    obtain ⟨r2, _, rfl⟩ := h2
    have h : r1.country = r2.country := hc
    show reduction_kpi rows base curr r1.country = reduction_kpi rows base curr r2.country
    rw [h]
  · intro rows pct base cmp p1 p2 h1 h2 hc
    simp only [add_target_2030_and_gap, List.mem_map] at h1 h2
    obtain ⟨r1, _, rfl⟩ := h1
    obtain ⟨r2, _, rfl⟩ := h2
    have h : r1.country = r2.country := hc
    show (target_kpi rows pct base r1.country, gap_kpi rows pct base cmp r1.country) =
      (target_kpi rows pct base r2.country, gap_kpi rows pct base cmp r2.country)
    rw [h]

/-- Witness for claim C8 at the Xland table: its two rows (years 1990 and
2023) carry the same broadcast KPI value. -/
theorem claim_C8_witness :
    (MRow.mk "Xland" (some 1990) (some 200), FVal.fin (-55)).2 =
      (MRow.mk "Xland" (some 2023) (some 90), FVal.fin (-55)).2 :=
  claim_C8.1 xland 1990 2023 _ _ (by with_unfolding_all decide)
    (by with_unfolding_all decide) rfl

/-- Reading an untouched index is unaffected by appending to the heap. -/
theorem heap_getD_append {α : Type} (l l2 : List α) (r : ℕ) (d : α)
    (h : r < l.length) : (l ++ l2).getD r d = l.getD r d :=
  List.getD_append l l2 d r h

/-- Reading an untouched index is unaffected by writing another index. -/
theorem heap_getD_set_ne {α : Type} (l : List α) (i : ℕ) (v : α) (r : ℕ)
    (d : α) (h : i ≠ r) : (l.set i v).getD r d = l.getD r d := by
  rw [List.getD_eq_getElem?_getD, List.getElem?_set_ne h, ← List.getD_eq_getElem?_getD]

/-- Claim C9: the pipeline stages behave copy-on-write — run over an
explicit heap of DataFrames, `clean_emissions_raw`, `apply_rounding` and
`merge_emissions_population_long` leave the table(s) at their argument
reference(s) unchanged and return a reference distinct from every
argument reference (a fresh copy/result), never mutating in place. -/
theorem claim_C9 :
    (∀ (h : List TblS) (r : ℕ) (cm : List (String × String)) (b : Bool),
        r < h.length →
        (clean_emissions_raw_prog h r cm b).1.getD r emptyTbl = h.getD r emptyTbl ∧
        ∀ ref, (clean_emissions_raw_prog h r cm b).2 = .ok ref → ref ≠ r) ∧
    (∀ (h : List TblS) (r : ℕ) (r5 pc : List String),
        r < h.length →
        (apply_rounding_prog h r r5 pc).1.getD r emptyTbl = h.getD r emptyTbl ∧
        (apply_rounding_prog h r r5 pc).2 ≠ r) ∧
    (∀ (h : List TblS) (r1 r2 : ℕ) (c y : String),
        r1 < h.length → r2 < h.length →
        (merge_prog h r1 r2 c y).1.getD r1 emptyTbl = h.getD r1 emptyTbl ∧
        (merge_prog h r1 r2 c y).1.getD r2 emptyTbl = h.getD r2 emptyTbl ∧
        ∀ ref, (merge_prog h r1 r2 c y).2 = .ok ref → ref ≠ r1 ∧ ref ≠ r2) := by
  refine ⟨?_, ?_, ?_⟩
  · intro h r cm b hr
    unfold clean_emissions_raw_prog
    cases hm : clean_emissions_raw (h.getD r emptyTbl) cm b
    · exact ⟨heap_getD_append h _ r emptyTbl hr, fun ref hre => Except.noConfusion hre⟩
    · refine ⟨?_, ?_⟩
      · rw [heap_getD_set_ne _ _ _ _ _ (Nat.ne_of_gt hr),
            heap_getD_append h _ r emptyTbl hr]
      · intro ref hre
        injection hre with hre
        omega
  · intro h r r5 pc hr
    unfold apply_rounding_prog
    refine ⟨?_, ?_⟩
    · rw [heap_getD_set_ne _ _ _ _ _ (Nat.ne_of_gt hr),
          heap_getD_append h _ r emptyTbl hr]
    · show h.length ≠ r
      omega
  · intro h r1 r2 c y hr1 hr2
    unfold merge_prog
    cases hm : merge_emissions_population_long (h.getD r1 emptyTbl)
      (h.getD r2 emptyTbl) c y
    · exact ⟨heap_getD_append h _ r1 emptyTbl hr1,
             heap_getD_append h _ r2 emptyTbl hr2,
             fun ref hre => Except.noConfusion hre⟩
    · dsimp only
      refine ⟨?_, ?_, ?_⟩
      · rw [List.append_assoc]
        exact heap_getD_append h _ r1 emptyTbl hr1
      · rw [List.append_assoc]
        exact heap_getD_append h _ r2 emptyTbl hr2
      · intro ref hre
        injection hre with hre
        simp only [List.length_append, List.length_cons, List.length_nil] at hre
        omega

/-- Witness for claim C9 at a concrete one-table heap. -/
theorem claim_C9_witness :
    (clean_emissions_raw_prog [emptyTbl] 0 DEFAULT_COUNTRY_MAP true).1.getD 0 emptyTbl =
      [emptyTbl].getD 0 emptyTbl ∧
    (apply_rounding_prog [emptyTbl] 0 ["emissions"] []).2 ≠ 0 ∧
    (merge_prog [emptyTbl] 0 0 "country" "year").1.getD 0 emptyTbl =
      [emptyTbl].getD 0 emptyTbl :=
  ⟨(claim_C9.1 [emptyTbl] 0 DEFAULT_COUNTRY_MAP true (by decide)).1,
   (claim_C9.2.1 [emptyTbl] 0 ["emissions"] [] (by decide)).2,
   (claim_C9.2.2 [emptyTbl] 0 0 "country" "year" (by decide) (by decide)).1⟩

/-- Claim C10: `clean_population_raw` and `population_wide_to_long` cast
their numeric columns to nullable Int64, which raises on a numeric but
non-integral cell (e.g. "1234.5") instead of coercing it to missing;
only non-numeric content (e.g. "abc") is coerced to missing. -/
theorem claim_C10 :
    (∀ q : ℚ, q.den ≠ 1 → castI64 (some q) = .error .cannotCastToInt) ∧
    clean_population_raw ⟨["Country Name", "1990"], [[Raw.str "Portugal", Raw.str "1234.5"]]⟩
      DEFAULT_EU_COUNTRIES = .error .cannotCastToInt ∧
    clean_population_raw ⟨["Country Name", "1990"], [[Raw.str "Portugal", Raw.str "abc"]]⟩
      DEFAULT_EU_COUNTRIES = .ok ⟨["Country Name", "1990"], [[Raw.str "Portugal", Raw.null]]⟩ ∧
    population_wide_to_long ⟨["Country Name", "1990"], [[Raw.str "Portugal", Raw.str "1234.5"]]⟩
      "Country Name" 1990 2023 = .error .cannotCastToInt ∧
    population_wide_to_long ⟨["Country Name", "1990"], [[Raw.str "Portugal", Raw.str "abc"]]⟩
      "Country Name" 1990 2023 = .ok [⟨Raw.str "Portugal", some 1990, none⟩] := by
  refine ⟨?_, ?_, ?_, ?_, ?_⟩
  · intro q hq
    simp [castI64, hq]
  · with_unfolding_all decide
  · with_unfolding_all decide
  · with_unfolding_all decide
  · with_unfolding_all decide

/-- Witness for claim C10 at the concrete non-integral value 1234.5. -/
theorem claim_C10_witness :
    castI64 (some ((2469 : ℚ) / 2)) = .error .cannotCastToInt :=
  claim_C10.1 ((2469 : ℚ) / 2) (by with_unfolding_all decide)

end ClimatePipeline
